import Mathlib

/-!
Tile cursor demo (Sega Mega Drive): shallow embedding of `src/main.c`.

The program keeps a cursor position local to `main`, a one-slot global
`move_dir` written by the joypad callback `joyHandler`, and two tile-map
planes of the video chip.  The embedding follows `src/main.c` line by line:

* `u16` variables are `Nat` with explicit reduction modulo `2 ^ 16`;
* the video chip is a record holding the tile map of both planes together
  with the chronological list of tile-map writes issued so far;
* the endless `while(1)` loop is the step function `main_loop`, one call per
  iteration, interleaved with calls of the callback by `run`.
-/

set_option linter.unusedVariables false

namespace TileCursor

/-! ## Constants of `src/main.c` -/

/-- Wrap a natural number to the range of the C type `u16`. -/
def u16 (n : Nat) : Nat := n % 65536

/-- Source line 14: `#define X_MIN 0`. -/
def X_MIN : Nat := 0
/-- Source line 15: `#define X_MAX 39`. -/
def X_MAX : Nat := 39
/-- Source line 16: `#define Y_MIN 0`. -/
def Y_MIN : Nat := 0
/-- Source line 17: `#define Y_MAX 27`. -/
def Y_MAX : Nat := 27

/-- Source line 20: `#define VRAM_POS_TILE_FILL 1`. -/
def VRAM_POS_TILE_FILL : Nat := 1
/-- Source line 39: `#define VRAM_POS_TILE_CURSOR 2`. -/
def VRAM_POS_TILE_CURSOR : Nat := 2

/-- Source line 64: `#define DIR_RIGHT 1`. -/
def DIR_RIGHT : Nat := 1
/-- Source line 65: `#define DIR_LEFT 2`. -/
def DIR_LEFT : Nat := 2
/-- Source line 66: `#define DIR_UP 3`. -/
def DIR_UP : Nat := 3
/-- Source line 67: `#define DIR_DOWN 4`. -/
def DIR_DOWN : Nat := 4

/-- Modelled from the spec: the platform header's `NULL`, which `src/main.c`
uses as the "none" value of the mailbox `move_dir` and as the "empty" tile
index; it is the integer zero. -/
def NULL : Nat := 0

/-! ## Platform pieces that `src/main.c` takes from `<genesis.h>` -/

/-- The joypad constants of `<genesis.h>` that `joyHandler` reads.  The header
is not part of the repository, so every statement about `joyHandler` takes
them as a parameter. -/
structure Joypad where
  JOY_1 : Nat
  BUTTON_UP : Nat
  BUTTON_DOWN : Nat
  BUTTON_LEFT : Nat
  BUTTON_RIGHT : Nat

/-- The values the SGDK header gives the joypad constants; used to evaluate
statements on concrete button states. -/
def sgdk : Joypad :=
  { JOY_1 := 0x0000
    BUTTON_UP := 0x0001
    BUTTON_DOWN := 0x0002
    BUTTON_LEFT := 0x0004
    BUTTON_RIGHT := 0x0008 }

/-- The two scrolling planes of the video chip. -/
inductive Plane where
  | PLAN_A
  | PLAN_B
  deriving DecidableEq, Repr

/-- Source line 91: `#define CURSOR_PLANE PLAN_A`. -/
def CURSOR_PLANE : Plane := Plane.PLAN_A
/-- Source line 92: `#define BG_PLANE PLAN_B`. -/
def BG_PLANE : Plane := Plane.PLAN_B

/-- One call of `VDP_setTileMapXY(plan, tile, x, y)`. -/
structure TileWrite where
  plan : Plane
  tile : Nat
  x : Nat
  y : Nat
  deriving DecidableEq, Repr

/-- The video chip as far as the program can observe it: the tile index held
by every cell of every plane, and the tile-map writes issued so far, oldest
first. -/
structure VDP where
  cell : Plane → Nat → Nat → Nat
  log : List TileWrite

/-- Modelled from the spec: the platform's video-subsystem reset `VDP_init`
(source line 101), after which every tile-map cell of both planes is empty
and no tile-map write has been issued. -/
def VDP_init : VDP :=
  { cell := fun _ _ _ => NULL
    log := [] }

/-- Modelled from the spec: the platform call `VDP_setTileMapXY`, which makes
the cell `(x, y)` of the plane `plan` hold the tile index `tile` and leaves
every other cell as it was. -/
def VDP_setTileMapXY (v : VDP) (plan : Plane) (tile x y : Nat) : VDP :=
  { cell := fun p a b => if p = plan ∧ a = x ∧ b = y then tile else v.cell p a b
    log := v.log ++ [{ plan := plan, tile := tile, x := x, y := y }] }

/-! ## The input listener -/

/-- Source lines 70-86, `joyHandler`: the value of the global `move_dir`
after the call, given its value before. -/
def joyHandler (pad : Joypad) (joy changed state : Nat) (move_dir : Nat) : Nat :=
  if joy ≠ pad.JOY_1 then
    move_dir
  else if state &&& pad.BUTTON_LEFT ≠ 0 then
    DIR_LEFT
  else if state &&& pad.BUTTON_RIGHT ≠ 0 then
    DIR_RIGHT
  else if state &&& pad.BUTTON_UP ≠ 0 then
    DIR_UP
  else if state &&& pad.BUTTON_DOWN ≠ 0 then
    DIR_DOWN
  else
    move_dir

/-! ## `main` -/

/-- The variables of the running program: the locals `cursor_x`, `cursor_y` of
`main`, the global `move_dir`, and the video chip. -/
structure State where
  cursor_x : Nat
  cursor_y : Nat
  move_dir : Nat
  vdp : VDP

/-- Source lines 116-118: the inner `for` loop over `fill_y`, entered with the
given value of `fill_y`. -/
def fillColumn (fill_x fill_y : Nat) (v : VDP) : VDP :=
  if fill_y ≤ Y_MAX then
    fillColumn fill_x (u16 (fill_y + 1))
      (VDP_setTileMapXY v BG_PLANE VRAM_POS_TILE_FILL fill_x fill_y)
  else
    v
termination_by Y_MAX + 1 - fill_y
decreasing_by
  simp only [u16, Y_MAX] at *
  omega

/-- Source lines 115-119: the outer `for` loop over `fill_x`, entered with the
given value of `fill_x`. -/
def fillPlane (fill_x : Nat) (v : VDP) : VDP :=
  if fill_x ≤ X_MAX then
    fillPlane (u16 (fill_x + 1)) (fillColumn fill_x Y_MIN v)
  else
    v
termination_by X_MAX + 1 - fill_x
decreasing_by
  simp only [u16, X_MAX] at *
  omega

/-- Source lines 96-122: `main` up to the entry of the `while(1)` loop. -/
def main_init : State :=
  let cursor_x := 20
  let cursor_y := 14
  let v := VDP_init
  let v := fillPlane X_MIN v
  let v := VDP_setTileMapXY v CURSOR_PLANE VRAM_POS_TILE_CURSOR cursor_x cursor_y
  { cursor_x := cursor_x, cursor_y := cursor_y, move_dir := NULL, vdp := v }

/-- Source lines 129-152: one iteration of the `while(1)` loop of `main`,
from the return of `VDP_waitVSync` to the end of the body. -/
def main_loop (s : State) : State :=
  if s.move_dir ≠ NULL then
    let v := VDP_setTileMapXY s.vdp CURSOR_PLANE NULL s.cursor_x s.cursor_y
    let pos : Nat × Nat :=
      if s.move_dir = DIR_RIGHT ∧ s.cursor_x < X_MAX then
        (u16 (s.cursor_x + 1), s.cursor_y)
      else if s.move_dir = DIR_LEFT ∧ s.cursor_x > X_MIN then
        (u16 (s.cursor_x + 65535), s.cursor_y)
      else if s.move_dir = DIR_UP ∧ s.cursor_y > Y_MIN then
        (s.cursor_x, u16 (s.cursor_y + 65535))
      else if s.move_dir = DIR_DOWN ∧ s.cursor_y < Y_MAX then
        (s.cursor_x, u16 (s.cursor_y + 1))
      else
        (s.cursor_x, s.cursor_y)
    let v := VDP_setTileMapXY v CURSOR_PLANE VRAM_POS_TILE_CURSOR pos.1 pos.2
    { cursor_x := pos.1, cursor_y := pos.2, move_dir := NULL, vdp := v }
  else
    s

/-! ## Interleavings of the callback and the loop -/

/-- What can happen next: the platform calls `joyHandler` with some
arguments, or the loop of `main` runs one iteration. -/
inductive Event where
  | joy (joy changed state : Nat)
  | frame

/-- The effect of one event on the program's variables. -/
def step (pad : Joypad) (s : State) : Event → State
  | Event.joy joy changed state =>
      { s with move_dir := joyHandler pad joy changed state s.move_dir }
  | Event.frame => main_loop s

/-- The effect of a finite sequence of events, oldest first. -/
def run (pad : Joypad) (s : State) (es : List Event) : State :=
  es.foldl (step pad) s

/-- The event list of `n` rounds, each one call `joyHandler(joy, changed,
state)` followed by one iteration of the loop of `main`. -/
def rounds (joy changed state : Nat) : Nat → List Event
  | 0 => []
  | n + 1 => Event.joy joy changed state :: Event.frame :: rounds joy changed state n

/-- A program state with the cursor drawn at `(x, y)` on an otherwise empty
foreground plane and `d` in the mailbox; used to evaluate statements on
concrete inputs. -/
def stateAt (x y d : Nat) : State :=
  { cursor_x := x
    cursor_y := y
    move_dir := d
    vdp := VDP_setTileMapXY VDP_init CURSOR_PLANE VRAM_POS_TILE_CURSOR x y }

/-- The cursor is inside the visible 40x28 grid. -/
def InBounds (s : State) : Prop :=
  X_MIN ≤ s.cursor_x ∧ s.cursor_x ≤ X_MAX ∧ Y_MIN ≤ s.cursor_y ∧ s.cursor_y ≤ Y_MAX

/-- The foreground plane holds the cursor tile at the cursor position and the
empty tile everywhere else. -/
def SingleCursor (s : State) : Prop :=
  ∀ x y : Nat, s.vdp.cell CURSOR_PLANE x y =
    if x = s.cursor_x ∧ y = s.cursor_y then VRAM_POS_TILE_CURSOR else NULL

/-- Source lines 21-31: `const u32 TILE_FILL[8]`, one word a row. -/
def TILE_FILL : List Nat :=
  [0x11111111, 0x11111111, 0x11111111, 0x11111111,
   0x11111111, 0x11111111, 0x11111111, 0x11111111]

/-- Source lines 40-50: `const u32 TILE_CURSOR[8]`, one word a row. -/
def TILE_CURSOR : List Nat :=
  [0x22222222, 0x20000002, 0x20000002, 0x20000002,
   0x20000002, 0x20000002, 0x20000002, 0x22222222]

/-- Modelled from the spec: the video chip reads each 32-bit word of a tile as
one row of 8 pixels of 4 bits, leftmost pixel in the most significant bits, so
pixel `c` of row `r` is `(word[r] >> (4 * (7 - c))) & 0xF`. -/
def pixel (tile : List Nat) (r c : Nat) : Nat :=
  (tile.getD r 0 >>> (4 * (7 - c))) &&& 0xF

/-- The values the mailbox `move_dir` is meant to take: `NULL` (none) or one of
the four direction constants. -/
def ValidDir (m : Nat) : Prop :=
  m = NULL ∨ m = DIR_RIGHT ∨ m = DIR_LEFT ∨ m = DIR_UP ∨ m = DIR_DOWN

/-- The event list of consecutive `joyHandler` calls, one for each triple
`(joy, changed, state)`, with no iteration of the loop between them. -/
def joyEvents (js : List (Nat × Nat × Nat)) : List Event :=
  js.map (fun j => Event.joy j.1 j.2.1 j.2.2)

/-! ## The fill loops -/

/-- The writes the inner loop issues for column `fill_x` from row `fill_y` on. -/
theorem fillColumn_log (fill_x fill_y : Nat) (v : VDP) :
    (fillColumn fill_x fill_y v).log =
      v.log ++ (List.range' fill_y (Y_MAX + 1 - fill_y)).map
        (fun b => TileWrite.mk BG_PLANE VRAM_POS_TILE_FILL fill_x b) := by
  induction fill_y, v using fillColumn.induct fill_x with
  | case1 fy v h ih =>
    rw [fillColumn, if_pos h, ih]
    have hw : u16 (fy + 1) = fy + 1 := by
      simp only [u16, Y_MAX] at *
      omega
    have hn : Y_MAX + 1 - fy = (Y_MAX + 1 - (fy + 1)) + 1 := by omega
    rw [hw, hn, List.range'_succ]
    simp [VDP_setTileMapXY]
  | case2 fy v h =>
    rw [fillColumn, if_neg h]
    have hn : Y_MAX + 1 - fy = 0 := by omega
    simp [hn]

/-- The tile map after the inner loop has run for column `fill_x` from row
`fill_y` on. -/
theorem fillColumn_cell (fill_x fill_y : Nat) (v : VDP) (p : Plane) (a b : Nat) :
    (fillColumn fill_x fill_y v).cell p a b =
      if p = BG_PLANE ∧ a = fill_x ∧ fill_y ≤ b ∧ b ≤ Y_MAX then VRAM_POS_TILE_FILL
      else v.cell p a b := by
  induction fill_y, v using fillColumn.induct fill_x with
  | case1 fy v h ih =>
    rw [fillColumn, if_pos h, ih]
    have hw : u16 (fy + 1) = fy + 1 := by
      simp only [u16, Y_MAX] at *
      omega
    simp only [hw, VDP_setTileMapXY]
    by_cases h1 : p = BG_PLANE ∧ a = fill_x ∧ fy + 1 ≤ b ∧ b ≤ Y_MAX
    · rw [if_pos h1, if_pos ⟨h1.1, h1.2.1, by omega, h1.2.2.2⟩]
    · rw [if_neg h1]
      by_cases h2 : p = BG_PLANE ∧ a = fill_x ∧ b = fy
      · rw [if_pos h2, if_pos ⟨h2.1, h2.2.1, by omega, by omega⟩]
      · rw [if_neg h2, if_neg]
        rintro ⟨h3, h4, h5, h6⟩
        by_cases h7 : b = fy
        · exact h2 ⟨h3, h4, h7⟩
        · exact h1 ⟨h3, h4, by omega, h6⟩
  | case2 fy v h =>
    rw [fillColumn, if_neg h, if_neg]
    rintro ⟨_, _, h5, h6⟩
    omega

/-- The writes the outer loop issues from column `fill_x` on. -/
theorem fillPlane_log (fill_x : Nat) (v : VDP) :
    (fillPlane fill_x v).log =
      v.log ++ (List.range' fill_x (X_MAX + 1 - fill_x)).flatMap
        (fun a => (List.range' Y_MIN (Y_MAX + 1 - Y_MIN)).map
          (fun b => TileWrite.mk BG_PLANE VRAM_POS_TILE_FILL a b)) := by
  induction fill_x, v using fillPlane.induct with
  | case1 fx v h ih =>
    rw [fillPlane, if_pos h, ih, fillColumn_log]
    have hw : u16 (fx + 1) = fx + 1 := by
      simp only [u16, X_MAX] at *
      omega
    have hn : X_MAX + 1 - fx = (X_MAX + 1 - (fx + 1)) + 1 := by omega
    rw [hw, hn, List.range'_succ, List.flatMap_cons, List.append_assoc]
  | case2 fx v h =>
    rw [fillPlane, if_neg h]
    have hn : X_MAX + 1 - fx = 0 := by omega
    simp [hn]

/-- The tile map after the outer loop has run from column `fill_x` on. -/
theorem fillPlane_cell (fill_x : Nat) (v : VDP) (p : Plane) (a b : Nat) :
    (fillPlane fill_x v).cell p a b =
      if p = BG_PLANE ∧ fill_x ≤ a ∧ a ≤ X_MAX ∧ b ≤ Y_MAX then VRAM_POS_TILE_FILL
      else v.cell p a b := by
  induction fill_x, v using fillPlane.induct with
  | case1 fx v h ih =>
    rw [fillPlane, if_pos h, ih, fillColumn_cell]
    have hw : u16 (fx + 1) = fx + 1 := by
      simp only [u16, X_MAX] at *
      omega
    rw [hw]
    by_cases h1 : p = BG_PLANE ∧ fx + 1 ≤ a ∧ a ≤ X_MAX ∧ b ≤ Y_MAX
    · rw [if_pos h1, if_pos ⟨h1.1, by omega, h1.2.2⟩]
    · rw [if_neg h1]
      by_cases h2 : p = BG_PLANE ∧ a = fx ∧ Y_MIN ≤ b ∧ b ≤ Y_MAX
      · rw [if_pos h2, if_pos ⟨h2.1, by omega, by omega, h2.2.2.2⟩]
      · rw [if_neg h2, if_neg]
        rintro ⟨h3, h4, h5, h6⟩
        by_cases h7 : a = fx
        · exact h2 ⟨h3, h7, Nat.zero_le b, h6⟩
        · exact h1 ⟨h3, by omega, h5, h6⟩
  | case2 fx v h =>
    rw [fillPlane, if_neg h, if_neg]
    rintro ⟨_, h4, h5, _⟩
    omega

/-! ## One iteration of the loop -/

/-- The cursor position after one iteration, by cases on the mailbox: the
guards of source lines 137-145 keep every `u16` step from wrapping. -/
theorem main_loop_pos (s : State) (hx : s.cursor_x < 65536) (hy : s.cursor_y < 65536) :
    ((main_loop s).cursor_x, (main_loop s).cursor_y) =
      if s.move_dir = DIR_RIGHT ∧ s.cursor_x < X_MAX then (s.cursor_x + 1, s.cursor_y)
      else if s.move_dir = DIR_LEFT ∧ s.cursor_x > X_MIN then (s.cursor_x - 1, s.cursor_y)
      else if s.move_dir = DIR_UP ∧ s.cursor_y > Y_MIN then (s.cursor_x, s.cursor_y - 1)
      else if s.move_dir = DIR_DOWN ∧ s.cursor_y < Y_MAX then (s.cursor_x, s.cursor_y + 1)
      else (s.cursor_x, s.cursor_y) := by
  unfold main_loop
  by_cases h0 : s.move_dir = NULL
  · simp [h0, NULL, DIR_RIGHT, DIR_LEFT, DIR_UP, DIR_DOWN]
  · simp only [ne_eq, h0, not_false_eq_true, if_true]
    by_cases h1 : s.move_dir = DIR_RIGHT ∧ s.cursor_x < X_MAX
    · have hw : u16 (s.cursor_x + 1) = s.cursor_x + 1 := by
        have := h1.2
        simp only [u16, X_MAX] at *
        omega
      simp only [if_pos h1, hw]
    · simp only [if_neg h1]
      by_cases h2 : s.move_dir = DIR_LEFT ∧ s.cursor_x > X_MIN
      · have hw : u16 (s.cursor_x + 65535) = s.cursor_x - 1 := by
          have := h2.2
          simp only [u16, X_MIN] at *
          omega
        simp only [if_pos h2, hw]
      · simp only [if_neg h2]
        by_cases h3 : s.move_dir = DIR_UP ∧ s.cursor_y > Y_MIN
        · have hw : u16 (s.cursor_y + 65535) = s.cursor_y - 1 := by
            have := h3.2
            simp only [u16, Y_MIN] at *
            omega
          simp only [if_pos h3, hw]
        · simp only [if_neg h3]
          by_cases h4 : s.move_dir = DIR_DOWN ∧ s.cursor_y < Y_MAX
          · have hw : u16 (s.cursor_y + 1) = s.cursor_y + 1 := by
              have := h4.2
              simp only [u16, Y_MAX] at *
              omega
            simp only [if_pos h4, hw]
          · simp only [if_neg h4]

/-- The mailbox is empty after one iteration. -/
theorem main_loop_move_dir (s : State) : (main_loop s).move_dir = NULL := by
  unfold main_loop
  by_cases h0 : s.move_dir = NULL
  · simp [h0]
  · simp [h0]

/-- The video chip after one iteration with a non-empty mailbox: the old cell
is cleared, then the cursor is drawn at the new position. -/
theorem main_loop_vdp (s : State) (h : s.move_dir ≠ NULL) :
    (main_loop s).vdp =
      VDP_setTileMapXY (VDP_setTileMapXY s.vdp CURSOR_PLANE NULL s.cursor_x s.cursor_y)
        CURSOR_PLANE VRAM_POS_TILE_CURSOR (main_loop s).cursor_x (main_loop s).cursor_y := by
  unfold main_loop
  simp only [ne_eq, h, not_false_eq_true, if_true]

/-- An iteration with an empty mailbox changes nothing. -/
theorem main_loop_idle (s : State) (h : s.move_dir = NULL) : main_loop s = s := by
  unfold main_loop
  simp [h]

/-- One iteration keeps the cursor inside the grid. -/
theorem main_loop_inBounds (s : State) (h : InBounds s) : InBounds (main_loop s) := by
  unfold InBounds at *
  simp only [X_MIN, X_MAX, Y_MIN, Y_MAX] at *
  have hp := main_loop_pos s (by omega) (by omega)
  simp only [X_MIN, X_MAX, Y_MIN, Y_MAX] at hp
  split_ifs at hp <;> simp only [Prod.mk.injEq] at hp <;> omega

/-- One iteration keeps the foreground plane showing exactly the cursor. -/
theorem main_loop_singleCursor (s : State) (h : SingleCursor s) :
    SingleCursor (main_loop s) := by
  by_cases h0 : s.move_dir = NULL
  · rw [main_loop_idle s h0]
    exact h
  · intro x y
    rw [main_loop_vdp s h0]
    simp only [VDP_setTileMapXY, true_and]
    by_cases h1 : x = (main_loop s).cursor_x ∧ y = (main_loop s).cursor_y
    · simp only [if_pos h1]
    · simp only [if_neg h1]
      by_cases h2 : x = s.cursor_x ∧ y = s.cursor_y
      · simp only [if_pos h2]
      · simp only [if_neg h2, h x y]

/-- No event moves the cursor outside the grid. -/
theorem step_inBounds (pad : Joypad) (s : State) (e : Event) (h : InBounds s) :
    InBounds (step pad s e) := by
  cases e with
  | joy joy changed state => exact h
  | frame => exact main_loop_inBounds s h

/-- Every event keeps the foreground plane showing exactly the cursor. -/
theorem step_singleCursor (pad : Joypad) (s : State) (e : Event) (h : SingleCursor s) :
    SingleCursor (step pad s e) := by
  cases e with
  | joy joy changed state => exact h
  | frame => exact main_loop_singleCursor s h

theorem run_inBounds (pad : Joypad) (es : List Event) (s : State) (h : InBounds s) :
    InBounds (run pad s es) := by
  induction es generalizing s with
  | nil => exact h
  | cons e es ih => exact ih (step pad s e) (step_inBounds pad s e h)

theorem run_singleCursor (pad : Joypad) (es : List Event) (s : State) (h : SingleCursor s) :
    SingleCursor (run pad s es) := by
  induction es generalizing s with
  | nil => exact h
  | cons e es ih => exact ih (step pad s e) (step_singleCursor pad s e h)

theorem main_init_inBounds : InBounds main_init := by
  unfold InBounds main_init
  simp only [X_MIN, X_MAX, Y_MIN, Y_MAX]
  omega

theorem main_init_singleCursor : SingleCursor main_init := by
  intro x y
  simp only [main_init, VDP_setTileMapXY, true_and]
  by_cases h1 : x = 20 ∧ y = 14
  · simp only [if_pos h1]
  · simp only [if_neg h1]
    rw [fillPlane_cell, if_neg]
    · rfl
    · rintro ⟨h, _⟩
      exact absurd h (by decide)

/-! ## The claims -/

/-- C1 (bounds invariant): after any finite interleaving of `joyHandler` calls
(with arbitrary arguments) and loop iterations started from the state `main`
enters its loop with, the cursor satisfies `0 <= cursor_x <= 39` and
`0 <= cursor_y <= 27`. -/
theorem bounds_invariant (pad : Joypad) (es : List Event) :
    0 ≤ (run pad main_init es).cursor_x ∧ (run pad main_init es).cursor_x ≤ 39 ∧
    0 ≤ (run pad main_init es).cursor_y ∧ (run pad main_init es).cursor_y ≤ 27 :=
  run_inBounds pad es main_init main_init_inBounds

/-- C2 (single occupancy): after any finite interleaving of `joyHandler` calls
and loop iterations started from the state `main` enters its loop with, the
foreground cell at the cursor position holds the cursor tile (index 2) and
every other foreground cell holds the empty tile (index 0). -/
theorem single_occupancy (pad : Joypad) (es : List Event) (x y : Nat) :
    (run pad main_init es).vdp.cell CURSOR_PLANE x y =
      if x = (run pad main_init es).cursor_x ∧ y = (run pad main_init es).cursor_y
      then 2 else 0 :=
  run_singleCursor pad es main_init main_init_singleCursor x y

/-- C3 (priority order): a `joyHandler` call for `JOY_1` whose button state has
at least one directional bit set writes `DIR_LEFT` if `BUTTON_LEFT` is set,
else `DIR_RIGHT` if `BUTTON_RIGHT` is set, else `DIR_UP` if `BUTTON_UP` is set,
else `DIR_DOWN`.  So left and up held together record left, up and down held
together (the two horizontal buttons released) record up, and the value
written is always one of the four direction constants. -/
theorem joyHandler_priority (pad : Joypad) (changed state move_dir : Nat)
    (h : state &&& pad.BUTTON_LEFT ≠ 0 ∨ state &&& pad.BUTTON_RIGHT ≠ 0 ∨
      state &&& pad.BUTTON_UP ≠ 0 ∨ state &&& pad.BUTTON_DOWN ≠ 0) :
    joyHandler pad pad.JOY_1 changed state move_dir =
        (if state &&& pad.BUTTON_LEFT ≠ 0 then DIR_LEFT
         else if state &&& pad.BUTTON_RIGHT ≠ 0 then DIR_RIGHT
         else if state &&& pad.BUTTON_UP ≠ 0 then DIR_UP
         else DIR_DOWN) ∧
      (state &&& pad.BUTTON_LEFT ≠ 0 → state &&& pad.BUTTON_UP ≠ 0 →
        joyHandler pad pad.JOY_1 changed state move_dir = DIR_LEFT) ∧
      (state &&& pad.BUTTON_LEFT = 0 → state &&& pad.BUTTON_RIGHT = 0 →
        state &&& pad.BUTTON_UP ≠ 0 → state &&& pad.BUTTON_DOWN ≠ 0 →
        joyHandler pad pad.JOY_1 changed state move_dir = DIR_UP) ∧
      (joyHandler pad pad.JOY_1 changed state move_dir = DIR_LEFT ∨
        joyHandler pad pad.JOY_1 changed state move_dir = DIR_RIGHT ∨
        joyHandler pad pad.JOY_1 changed state move_dir = DIR_UP ∨
        joyHandler pad pad.JOY_1 changed state move_dir = DIR_DOWN) := by
  unfold joyHandler
  simp only [ne_eq, not_true_eq_false, if_false]
  by_cases hL : state &&& pad.BUTTON_LEFT = 0
  · by_cases hR : state &&& pad.BUTTON_RIGHT = 0
    · by_cases hU : state &&& pad.BUTTON_UP = 0
      · have hD : state &&& pad.BUTTON_DOWN ≠ 0 := by
          rcases h with h | h | h | h
          · exact absurd hL h
          · exact absurd hR h
          · exact absurd hU h
          · exact h
        simp [hL, hR, hU, hD]
      · simp [hL, hR, hU]
    · simp [hL, hR]
  · simp [hL]

/-- C3 at concrete inputs: with the SGDK constants, the state `0x0005` (left
and up held) records `DIR_LEFT` and the state `0x0003` (up and down held)
records `DIR_UP`. -/
theorem joyHandler_priority_witness :
    (5 &&& sgdk.BUTTON_LEFT ≠ 0 ∧ 5 &&& sgdk.BUTTON_UP ≠ 0) ∧
      joyHandler sgdk sgdk.JOY_1 0 5 0 = DIR_LEFT ∧
      (3 &&& sgdk.BUTTON_UP ≠ 0 ∧ 3 &&& sgdk.BUTTON_DOWN ≠ 0) ∧
      joyHandler sgdk sgdk.JOY_1 0 3 0 = DIR_UP :=
  ⟨by decide,
    (joyHandler_priority sgdk 0 5 0 (Or.inl (by decide))).2.1 (by decide) (by decide),
    by decide,
    (joyHandler_priority sgdk 0 3 0 (Or.inr (Or.inr (Or.inl (by decide))))).2.2.1
      (by decide) (by decide) (by decide) (by decide)⟩

/-- C8 (non-primary devices are ignored): a `joyHandler` call whose `joy` is not
`JOY_1` leaves `move_dir` unchanged, whatever `changed` and `state` are. -/
theorem joyHandler_other_device (pad : Joypad) (joy changed state move_dir : Nat)
    (h : joy ≠ pad.JOY_1) :
    joyHandler pad joy changed state move_dir = move_dir := by
  unfold joyHandler
  rw [if_pos h]

/-- C8 at a concrete input: an event of the second pad (`JOY_2 = 1` in SGDK)
with every directional bit set leaves a pending `DIR_UP` in place. -/
theorem joyHandler_other_device_witness :
    (1 ≠ sgdk.JOY_1) ∧ joyHandler sgdk 1 15 15 DIR_UP = DIR_UP :=
  ⟨by decide, joyHandler_other_device sgdk 1 15 15 DIR_UP (by decide)⟩

/-- C10 (mailbox empty after every iteration): whatever the state before,
`move_dir` is 0 after one iteration of the loop. -/
theorem mailbox_empty_after_iteration (s : State) : (main_loop s).move_dir = 0 :=
  main_loop_move_dir s

/-- C4 (clamp at edge): with left pending at `cursor_x = 0`, right pending at
`cursor_x = 39`, up pending at `cursor_y = 0` or down pending at
`cursor_y = 27`, one iteration leaves `cursor_x` and `cursor_y` unchanged (no
wraparound), issues exactly the clear and the redraw of the cursor cell, and
that cell holds the cursor tile afterwards. -/
theorem clamp_at_edge (s : State)
    (h : (s.move_dir = DIR_LEFT ∧ s.cursor_x = 0) ∨ (s.move_dir = DIR_RIGHT ∧ s.cursor_x = 39) ∨
      (s.move_dir = DIR_UP ∧ s.cursor_y = 0) ∨ (s.move_dir = DIR_DOWN ∧ s.cursor_y = 27)) :
    (main_loop s).cursor_x = s.cursor_x ∧ (main_loop s).cursor_y = s.cursor_y ∧
      (main_loop s).vdp.log = s.vdp.log ++
        [TileWrite.mk CURSOR_PLANE 0 s.cursor_x s.cursor_y,
         TileWrite.mk CURSOR_PLANE 2 s.cursor_x s.cursor_y] ∧
      (main_loop s).vdp.cell CURSOR_PLANE s.cursor_x s.cursor_y = 2 := by
  rcases h with ⟨hd, hp⟩ | ⟨hd, hp⟩ | ⟨hd, hp⟩ | ⟨hd, hp⟩ <;>
    simp [main_loop, VDP_setTileMapXY, hd, hp, NULL, DIR_RIGHT, DIR_LEFT, DIR_UP, DIR_DOWN,
      X_MIN, X_MAX, Y_MIN, Y_MAX, VRAM_POS_TILE_CURSOR]

/-- C4 at a concrete input: left pending with the cursor at `(0, 14)`. -/
theorem clamp_at_edge_witness :
    ((stateAt 0 14 DIR_LEFT).move_dir = DIR_LEFT ∧ (stateAt 0 14 DIR_LEFT).cursor_x = 0) ∧
      (main_loop (stateAt 0 14 DIR_LEFT)).cursor_x = 0 ∧
      (main_loop (stateAt 0 14 DIR_LEFT)).cursor_y = 14 ∧
      (main_loop (stateAt 0 14 DIR_LEFT)).vdp.cell CURSOR_PLANE 0 14 = 2 :=
  ⟨⟨rfl, rfl⟩,
    (clamp_at_edge (stateAt 0 14 DIR_LEFT) (Or.inl ⟨rfl, rfl⟩)).1,
    (clamp_at_edge (stateAt 0 14 DIR_LEFT) (Or.inl ⟨rfl, rfl⟩)).2.1,
    (clamp_at_edge (stateAt 0 14 DIR_LEFT) (Or.inl ⟨rfl, rfl⟩)).2.2.2⟩

/-- C5 (in-bounds move): from an in-bounds cursor `(x, y)`, a pending direction
whose unit-offset candidate is still inside the grid makes one iteration set
the cursor to exactly that candidate; the iteration issues exactly two writes,
the empty tile to the old foreground cell and the cursor tile to the candidate
cell, and afterwards the old cell holds 0 and the candidate cell holds 2. -/
theorem in_bounds_move (s : State)
    (hb : 0 ≤ s.cursor_x ∧ s.cursor_x ≤ 39 ∧ 0 ≤ s.cursor_y ∧ s.cursor_y ≤ 27) :
    (s.move_dir = DIR_RIGHT → s.cursor_x + 1 ≤ 39 →
      (main_loop s).cursor_x = s.cursor_x + 1 ∧ (main_loop s).cursor_y = s.cursor_y ∧
      (main_loop s).vdp.log = s.vdp.log ++
        [TileWrite.mk CURSOR_PLANE 0 s.cursor_x s.cursor_y,
         TileWrite.mk CURSOR_PLANE 2 (s.cursor_x + 1) s.cursor_y] ∧
      (main_loop s).vdp.cell CURSOR_PLANE s.cursor_x s.cursor_y = 0 ∧
      (main_loop s).vdp.cell CURSOR_PLANE (s.cursor_x + 1) s.cursor_y = 2) ∧
    (s.move_dir = DIR_LEFT → 1 ≤ s.cursor_x →
      (main_loop s).cursor_x = s.cursor_x - 1 ∧ (main_loop s).cursor_y = s.cursor_y ∧
      (main_loop s).vdp.log = s.vdp.log ++
        [TileWrite.mk CURSOR_PLANE 0 s.cursor_x s.cursor_y,
         TileWrite.mk CURSOR_PLANE 2 (s.cursor_x - 1) s.cursor_y] ∧
      (main_loop s).vdp.cell CURSOR_PLANE s.cursor_x s.cursor_y = 0 ∧
      (main_loop s).vdp.cell CURSOR_PLANE (s.cursor_x - 1) s.cursor_y = 2) ∧
    (s.move_dir = DIR_UP → 1 ≤ s.cursor_y →
      (main_loop s).cursor_x = s.cursor_x ∧ (main_loop s).cursor_y = s.cursor_y - 1 ∧
      (main_loop s).vdp.log = s.vdp.log ++
        [TileWrite.mk CURSOR_PLANE 0 s.cursor_x s.cursor_y,
         TileWrite.mk CURSOR_PLANE 2 s.cursor_x (s.cursor_y - 1)] ∧
      (main_loop s).vdp.cell CURSOR_PLANE s.cursor_x s.cursor_y = 0 ∧
      (main_loop s).vdp.cell CURSOR_PLANE s.cursor_x (s.cursor_y - 1) = 2) ∧
    (s.move_dir = DIR_DOWN → s.cursor_y + 1 ≤ 27 →
      (main_loop s).cursor_x = s.cursor_x ∧ (main_loop s).cursor_y = s.cursor_y + 1 ∧
      (main_loop s).vdp.log = s.vdp.log ++
        [TileWrite.mk CURSOR_PLANE 0 s.cursor_x s.cursor_y,
         TileWrite.mk CURSOR_PLANE 2 s.cursor_x (s.cursor_y + 1)] ∧
      (main_loop s).vdp.cell CURSOR_PLANE s.cursor_x s.cursor_y = 0 ∧
      (main_loop s).vdp.cell CURSOR_PLANE s.cursor_x (s.cursor_y + 1) = 2) := by
  obtain ⟨_, hx, _, hy⟩ := hb
  refine ⟨fun hd hc => ?_, fun hd hc => ?_, fun hd hc => ?_, fun hd hc => ?_⟩
  · have hw : u16 (s.cursor_x + 1) = s.cursor_x + 1 := by
      simp only [u16]
      omega
    have hlt : s.cursor_x < 39 := by omega
    simp [main_loop, VDP_setTileMapXY, hd, hw, hlt, NULL, DIR_RIGHT, X_MAX,
      VRAM_POS_TILE_CURSOR]
  · have hw : u16 (s.cursor_x + 65535) = s.cursor_x - 1 := by
      simp only [u16]
      omega
    have hlt : 0 < s.cursor_x := by omega
    have hne : ¬ s.cursor_x = s.cursor_x - 1 := by omega
    simp [main_loop, VDP_setTileMapXY, hd, hw, hlt, hne, NULL, DIR_RIGHT, DIR_LEFT, X_MIN,
      VRAM_POS_TILE_CURSOR]
  · have hw : u16 (s.cursor_y + 65535) = s.cursor_y - 1 := by
      simp only [u16]
      omega
    have hlt : 0 < s.cursor_y := by omega
    have hne : ¬ s.cursor_y = s.cursor_y - 1 := by omega
    simp [main_loop, VDP_setTileMapXY, hd, hw, hlt, hne, NULL, DIR_RIGHT, DIR_LEFT, DIR_UP,
      Y_MIN, VRAM_POS_TILE_CURSOR]
  · have hw : u16 (s.cursor_y + 1) = s.cursor_y + 1 := by
      simp only [u16]
      omega
    have hlt : s.cursor_y < 27 := by omega
    simp [main_loop, VDP_setTileMapXY, hd, hw, hlt, NULL, DIR_RIGHT, DIR_LEFT, DIR_UP,
      DIR_DOWN, Y_MAX, VRAM_POS_TILE_CURSOR]

/-- C5 at a concrete input: right pending with the cursor at `(20, 14)`. -/
theorem in_bounds_move_witness :
    (0 ≤ (stateAt 20 14 DIR_RIGHT).cursor_x ∧ (stateAt 20 14 DIR_RIGHT).cursor_x ≤ 39 ∧
      0 ≤ (stateAt 20 14 DIR_RIGHT).cursor_y ∧ (stateAt 20 14 DIR_RIGHT).cursor_y ≤ 27) ∧
      (main_loop (stateAt 20 14 DIR_RIGHT)).cursor_x = 21 ∧
      (main_loop (stateAt 20 14 DIR_RIGHT)).cursor_y = 14 ∧
      (main_loop (stateAt 20 14 DIR_RIGHT)).vdp.cell CURSOR_PLANE 20 14 = 0 ∧
      (main_loop (stateAt 20 14 DIR_RIGHT)).vdp.cell CURSOR_PLANE 21 14 = 2 :=
  ⟨by decide,
    ((in_bounds_move (stateAt 20 14 DIR_RIGHT) (by decide)).1 rfl (by decide)).1,
    ((in_bounds_move (stateAt 20 14 DIR_RIGHT) (by decide)).1 rfl (by decide)).2.1,
    ((in_bounds_move (stateAt 20 14 DIR_RIGHT) (by decide)).1 rfl (by decide)).2.2.2⟩

/-- C6 (mailbox overwrite, last write wins): after two `joyHandler` calls for
`JOY_1` that each have a directional bit set, with no loop iteration between
them, `move_dir` holds the direction `d2` the second call resolves to, which
does not depend on what the first call wrote; the next iteration yields
exactly the state it yields when `d2` is put in the mailbox of the original
state (so the first direction has no effect), and it leaves the mailbox
empty. -/
theorem mailbox_overwrite (pad : Joypad) (s : State) (c1 st1 c2 st2 : Nat)
    (h1 : st1 &&& pad.BUTTON_LEFT ≠ 0 ∨ st1 &&& pad.BUTTON_RIGHT ≠ 0 ∨
      st1 &&& pad.BUTTON_UP ≠ 0 ∨ st1 &&& pad.BUTTON_DOWN ≠ 0)
    (h2 : st2 &&& pad.BUTTON_LEFT ≠ 0 ∨ st2 &&& pad.BUTTON_RIGHT ≠ 0 ∨
      st2 &&& pad.BUTTON_UP ≠ 0 ∨ st2 &&& pad.BUTTON_DOWN ≠ 0) :
    (run pad s [Event.joy pad.JOY_1 c1 st1, Event.joy pad.JOY_1 c2 st2]).move_dir =
        joyHandler pad pad.JOY_1 c2 st2 s.move_dir ∧
      (∀ m : Nat, joyHandler pad pad.JOY_1 c2 st2 m =
        joyHandler pad pad.JOY_1 c2 st2 s.move_dir) ∧
      run pad s [Event.joy pad.JOY_1 c1 st1, Event.joy pad.JOY_1 c2 st2, Event.frame] =
        main_loop { s with move_dir := joyHandler pad pad.JOY_1 c2 st2 s.move_dir } ∧
      (run pad s [Event.joy pad.JOY_1 c1 st1, Event.joy pad.JOY_1 c2 st2,
        Event.frame]).move_dir = 0 := by
  have hm : ∀ m : Nat, joyHandler pad pad.JOY_1 c2 st2 m =
      joyHandler pad pad.JOY_1 c2 st2 s.move_dir := by
    intro m
    unfold joyHandler
    simp only [ne_eq, not_true_eq_false, if_false]
    by_cases hL : st2 &&& pad.BUTTON_LEFT = 0
    · by_cases hR : st2 &&& pad.BUTTON_RIGHT = 0
      · by_cases hU : st2 &&& pad.BUTTON_UP = 0
        · have hD : st2 &&& pad.BUTTON_DOWN ≠ 0 := by
            rcases h2 with h | h | h | h
            · exact absurd hL h
            · exact absurd hR h
            · exact absurd hU h
            · exact h
          simp [hL, hR, hU, hD]
        · simp [hL, hR, hU]
      · simp [hL, hR]
    · simp [hL]
  have hs : run pad s [Event.joy pad.JOY_1 c1 st1, Event.joy pad.JOY_1 c2 st2] =
      { s with move_dir := joyHandler pad pad.JOY_1 c2 st2 s.move_dir } := by
    simp only [run, List.foldl, step]
    rw [hm]
  refine ⟨?_, hm, ?_, ?_⟩
  · rw [hs]
  · have hr : run pad s [Event.joy pad.JOY_1 c1 st1, Event.joy pad.JOY_1 c2 st2, Event.frame] =
        main_loop (run pad s [Event.joy pad.JOY_1 c1 st1, Event.joy pad.JOY_1 c2 st2]) := rfl
    rw [hr, hs]
  · exact main_loop_move_dir _

/-- C6 at a concrete input: with the SGDK constants and the cursor at
`(20, 14)`, a left event (state `0x0004`) followed by a down event (state
`0x0002`) leaves `DIR_DOWN` pending, and the next iteration moves the cursor
down only, to `(20, 15)`. -/
theorem mailbox_overwrite_witness :
    (joyHandler sgdk sgdk.JOY_1 0 4 0 = DIR_LEFT ∧ joyHandler sgdk sgdk.JOY_1 0 2 0 = DIR_DOWN) ∧
      (run sgdk (stateAt 20 14 0)
        [Event.joy sgdk.JOY_1 0 4, Event.joy sgdk.JOY_1 0 2]).move_dir = DIR_DOWN ∧
      (run sgdk (stateAt 20 14 0)
        [Event.joy sgdk.JOY_1 0 4, Event.joy sgdk.JOY_1 0 2, Event.frame]).cursor_x = 20 ∧
      (run sgdk (stateAt 20 14 0)
        [Event.joy sgdk.JOY_1 0 4, Event.joy sgdk.JOY_1 0 2, Event.frame]).cursor_y = 15 ∧
      (run sgdk (stateAt 20 14 0)
        [Event.joy sgdk.JOY_1 0 4, Event.joy sgdk.JOY_1 0 2, Event.frame]).move_dir = 0 :=
  ⟨by decide,
    (mailbox_overwrite sgdk (stateAt 20 14 0) 0 4 0 2
      (Or.inl (by decide)) (Or.inr (Or.inr (Or.inr (by decide))))).1,
    congrArg State.cursor_x (mailbox_overwrite sgdk (stateAt 20 14 0) 0 4 0 2
      (Or.inl (by decide)) (Or.inr (Or.inr (Or.inr (by decide))))).2.2.1,
    congrArg State.cursor_y (mailbox_overwrite sgdk (stateAt 20 14 0) 0 4 0 2
      (Or.inl (by decide)) (Or.inr (Or.inr (Or.inr (by decide))))).2.2.1,
    (mailbox_overwrite sgdk (stateAt 20 14 0) 0 4 0 2
      (Or.inl (by decide)) (Or.inr (Or.inr (Or.inr (by decide))))).2.2.2⟩

/-- A pending down request moves the cursor one row down, stopping at
`Y_MAX`, and leaves the column alone. -/
theorem main_loop_down (s : State) (hd : s.move_dir = DIR_DOWN) (hy : s.cursor_y ≤ Y_MAX) :
    (main_loop s).cursor_x = s.cursor_x ∧
      (main_loop s).cursor_y = min (s.cursor_y + 1) Y_MAX := by
  simp only [Y_MAX] at hy
  by_cases hlt : s.cursor_y < 27
  · have hw : u16 (s.cursor_y + 1) = s.cursor_y + 1 := by
      simp only [u16]
      omega
    have hm : min (s.cursor_y + 1) 27 = s.cursor_y + 1 := by omega
    simp [main_loop, hd, hlt, hw, hm, NULL, DIR_RIGHT, DIR_LEFT, DIR_UP, DIR_DOWN, Y_MAX]
  · have hm : min (s.cursor_y + 1) 27 = s.cursor_y := by omega
    simp [main_loop, hd, hlt, hm, NULL, DIR_RIGHT, DIR_LEFT, DIR_UP, DIR_DOWN, Y_MAX]

/-- Rounds of a down request: the column stays and the row grows by one a
round until it stops at `Y_MAX`. -/
theorem run_rounds_down (pad : Joypad) (changed state : Nat)
    (hD : state &&& pad.BUTTON_LEFT = 0 ∧ state &&& pad.BUTTON_RIGHT = 0 ∧
      state &&& pad.BUTTON_UP = 0 ∧ state &&& pad.BUTTON_DOWN ≠ 0)
    (n : Nat) (s : State) (hy : s.cursor_y ≤ Y_MAX) :
    (run pad s (rounds pad.JOY_1 changed state n)).cursor_x = s.cursor_x ∧
      (run pad s (rounds pad.JOY_1 changed state n)).cursor_y = min (s.cursor_y + n) Y_MAX := by
  induction n generalizing s with
  | zero => exact ⟨rfl, (Nat.min_eq_left hy).symm⟩
  | succ n ih =>
    have hj : joyHandler pad pad.JOY_1 changed state s.move_dir = DIR_DOWN := by
      simp [joyHandler, hD.1, hD.2.1, hD.2.2.1, hD.2.2.2]
    have hr : run pad s (rounds pad.JOY_1 changed state (n + 1)) =
        run pad (main_loop { s with move_dir := DIR_DOWN })
          (rounds pad.JOY_1 changed state n) := by
      simp only [rounds, run, List.foldl, step, hj]
    have ht := main_loop_down { s with move_dir := DIR_DOWN } rfl hy
    have h' := ih (main_loop { s with move_dir := DIR_DOWN })
      (by rw [ht.2]; exact Nat.min_le_right _ _)
    rw [hr]
    refine ⟨h'.1.trans ht.1, h'.2.trans ?_⟩
    rw [ht.2]
    simp only [Y_MAX]
    omega

/-- C7 (end-to-end scenario): from the state `main` enters its loop with, a
right request followed by one iteration puts the cursor at `(21, 14)`, leaves
the foreground cell `(20, 14)` empty and the cell `(21, 14)` holding the
cursor tile; further rounds of a down request and one iteration then reach
row 26 after 12 rounds and row 27 after 13, and the 14th round is clamped:
the cursor ends at `(21, 27)`. -/
theorem end_to_end (pad : Joypad) (c1 c2 stR stD : Nat)
    (hR : stR &&& pad.BUTTON_LEFT = 0 ∧ stR &&& pad.BUTTON_RIGHT ≠ 0)
    (hD : stD &&& pad.BUTTON_LEFT = 0 ∧ stD &&& pad.BUTTON_RIGHT = 0 ∧
      stD &&& pad.BUTTON_UP = 0 ∧ stD &&& pad.BUTTON_DOWN ≠ 0) :
    ((run pad main_init [Event.joy pad.JOY_1 c1 stR, Event.frame]).cursor_x = 21 ∧
      (run pad main_init [Event.joy pad.JOY_1 c1 stR, Event.frame]).cursor_y = 14 ∧
      (run pad main_init [Event.joy pad.JOY_1 c1 stR, Event.frame]).vdp.cell
        CURSOR_PLANE 20 14 = 0 ∧
      (run pad main_init [Event.joy pad.JOY_1 c1 stR, Event.frame]).vdp.cell
        CURSOR_PLANE 21 14 = 2) ∧
    ((run pad main_init ([Event.joy pad.JOY_1 c1 stR, Event.frame] ++
        rounds pad.JOY_1 c2 stD 12)).cursor_x = 21 ∧
      (run pad main_init ([Event.joy pad.JOY_1 c1 stR, Event.frame] ++
        rounds pad.JOY_1 c2 stD 12)).cursor_y = 26) ∧
    ((run pad main_init ([Event.joy pad.JOY_1 c1 stR, Event.frame] ++
        rounds pad.JOY_1 c2 stD 13)).cursor_x = 21 ∧
      (run pad main_init ([Event.joy pad.JOY_1 c1 stR, Event.frame] ++
        rounds pad.JOY_1 c2 stD 13)).cursor_y = 27) ∧
    ((run pad main_init ([Event.joy pad.JOY_1 c1 stR, Event.frame] ++
        rounds pad.JOY_1 c2 stD 14)).cursor_x = 21 ∧
      (run pad main_init ([Event.joy pad.JOY_1 c1 stR, Event.frame] ++
        rounds pad.JOY_1 c2 stD 14)).cursor_y = 27) := by
  have hj : joyHandler pad pad.JOY_1 c1 stR main_init.move_dir = DIR_RIGHT := by
    simp [joyHandler, hR.1, hR.2]
  have h1 : run pad main_init [Event.joy pad.JOY_1 c1 stR, Event.frame] =
      main_loop { main_init with move_dir := DIR_RIGHT } := by
    simp only [run, List.foldl, step, hj]
  have hx : (main_loop { main_init with move_dir := DIR_RIGHT }).cursor_x = 21 := rfl
  have hy : (main_loop { main_init with move_dir := DIR_RIGHT }).cursor_y = 14 := rfl
  have hsplit : ∀ n : Nat,
      run pad main_init ([Event.joy pad.JOY_1 c1 stR, Event.frame] ++
        rounds pad.JOY_1 c2 stD n) =
      run pad (main_loop { main_init with move_dir := DIR_RIGHT })
        (rounds pad.JOY_1 c2 stD n) := by
    intro n
    rw [← h1]
    simp only [run, List.foldl_append]
  have hdown := fun n : Nat => run_rounds_down pad c2 stD hD n
    (main_loop { main_init with move_dir := DIR_RIGHT }) (by rw [hy]; decide)
  refine ⟨?_, ?_, ?_, ?_⟩
  · rw [h1]
    refine ⟨rfl, rfl, ?_, ?_⟩
    · simp [main_loop, VDP_setTileMapXY, main_init, NULL, DIR_RIGHT, X_MAX, u16]
    · simp [main_loop, VDP_setTileMapXY, main_init, NULL, DIR_RIGHT, X_MAX, u16,
        VRAM_POS_TILE_CURSOR]
  · rw [hsplit 12, (hdown 12).1, (hdown 12).2, hx, hy]
    exact ⟨rfl, by decide⟩
  · rw [hsplit 13, (hdown 13).1, (hdown 13).2, hx, hy]
    exact ⟨rfl, by decide⟩
  · rw [hsplit 14, (hdown 14).1, (hdown 14).2, hx, hy]
    exact ⟨rfl, by decide⟩

/-- C7 at a concrete input: with the SGDK constants, the right request is the
state `0x0008` and the down request the state `0x0002`. -/
theorem end_to_end_witness :
    ((8 &&& sgdk.BUTTON_LEFT = 0 ∧ 8 &&& sgdk.BUTTON_RIGHT ≠ 0) ∧
      (2 &&& sgdk.BUTTON_LEFT = 0 ∧ 2 &&& sgdk.BUTTON_RIGHT = 0 ∧
        2 &&& sgdk.BUTTON_UP = 0 ∧ 2 &&& sgdk.BUTTON_DOWN ≠ 0)) ∧
      (run sgdk main_init [Event.joy sgdk.JOY_1 8 8, Event.frame]).cursor_x = 21 ∧
      (run sgdk main_init ([Event.joy sgdk.JOY_1 8 8, Event.frame] ++
        rounds sgdk.JOY_1 2 2 14)).cursor_x = 21 ∧
      (run sgdk main_init ([Event.joy sgdk.JOY_1 8 8, Event.frame] ++
        rounds sgdk.JOY_1 2 2 14)).cursor_y = 27 :=
  ⟨by decide,
    (end_to_end sgdk 8 2 8 2 (by decide) (by decide)).1.1,
    (end_to_end sgdk 8 2 8 2 (by decide) (by decide)).2.2.2.1,
    (end_to_end sgdk 8 2 8 2 (by decide) (by decide)).2.2.2.2⟩

/-- The length of a concatenation of lists that all have the same length. -/
theorem length_flatMap_const {α β : Type} (l : List α) (f : α → List β) (m : Nat)
    (h : ∀ a : α, (f a).length = m) : (l.flatMap f).length = l.length * m := by
  induction l with
  | nil => simp
  | cons a l ih =>
    rw [List.flatMap_cons, List.length_append, ih, h a, List.length_cons, Nat.succ_mul]
    omega

/-- C9 (state on entry of the loop): the fill loops terminate and leave the
fill tile (index 1) in every background cell `(x, y)` with `x <= 39` and
`y <= 27` and in no other; the writes issued are, in order, one fill write for
each of the 40 * 28 = 1120 grid cells followed by the write of the cursor tile
(index 2) to the foreground cell `(20, 14)`, 1121 writes in all; that cell
holds the cursor tile, the cursor is at `(20, 14)` and the mailbox is empty. -/
theorem main_init_post :
    (∀ x y : Nat, main_init.vdp.cell BG_PLANE x y = if x ≤ 39 ∧ y ≤ 27 then 1 else 0) ∧
      main_init.vdp.log =
        (List.range 40).flatMap
          (fun x => (List.range 28).map (fun y => TileWrite.mk BG_PLANE 1 x y)) ++
        [TileWrite.mk CURSOR_PLANE 2 20 14] ∧
      main_init.vdp.log.length = 40 * 28 + 1 ∧
      main_init.vdp.cell CURSOR_PLANE 20 14 = 2 ∧
      main_init.cursor_x = 20 ∧ main_init.cursor_y = 14 ∧ main_init.move_dir = 0 := by
  have hlog : main_init.vdp.log =
      (List.range 40).flatMap
        (fun x => (List.range 28).map (fun y => TileWrite.mk BG_PLANE 1 x y)) ++
      [TileWrite.mk CURSOR_PLANE 2 20 14] := by
    simp only [main_init, VDP_setTileMapXY]
    rw [fillPlane_log, List.range_eq_range', List.range_eq_range']
    rfl
  refine ⟨?_, hlog, ?_, ?_, rfl, rfl, rfl⟩
  · intro x y
    simp only [main_init, VDP_setTileMapXY]
    rw [if_neg (by rintro ⟨h, _⟩; exact absurd h (by decide)), fillPlane_cell]
    simp only [X_MIN, X_MAX, Y_MAX, VRAM_POS_TILE_FILL, true_and, Nat.zero_le]
    rfl
  · rw [hlog, List.length_append,
      length_flatMap_const _ _ 28 (fun a => by rw [List.length_map, List.length_range]),
      List.length_range, List.length_singleton]
  · simp [main_init, VDP_setTileMapXY, VRAM_POS_TILE_CURSOR]

/-- Calls of `joyHandler` never move the cursor and never touch the video
chip. -/
theorem run_joyEvents_frame (pad : Joypad) (js : List (Nat × Nat × Nat)) (s : State) :
    (run pad s (joyEvents js)).cursor_x = s.cursor_x ∧
      (run pad s (joyEvents js)).cursor_y = s.cursor_y ∧
      (run pad s (joyEvents js)).vdp = s.vdp := by
  induction js generalizing s with
  | nil => exact ⟨rfl, rfl, rfl⟩
  | cons j js ih => exact ih (step pad s (Event.joy j.1 j.2.1 j.2.2))

/-- One iteration moves an in-bounds cursor by at most one cell. -/
theorem main_loop_dist (s : State) (hb : InBounds s) :
    |((main_loop s).cursor_x : Int) - (s.cursor_x : Int)| +
      |((main_loop s).cursor_y : Int) - (s.cursor_y : Int)| ≤ 1 := by
  unfold InBounds at hb
  simp only [X_MIN, X_MAX, Y_MIN, Y_MAX] at hb
  have hp := main_loop_pos s (by omega) (by omega)
  split_ifs at hp with h1 h2 h3 h4 <;> simp only [Prod.mk.injEq] at hp <;>
    rw [hp.1, hp.2]
  · simp
  · have hx : 0 < s.cursor_x := h2.2
    have : ((s.cursor_x - 1 : Nat) : Int) = (s.cursor_x : Int) - 1 := by omega
    rw [this]
    simp
  · have hy : 0 < s.cursor_y := h3.2
    have : ((s.cursor_y - 1 : Nat) : Int) = (s.cursor_y : Int) - 1 := by omega
    rw [this]
    simp
  · simp
  · simp

/-- C11 (at most one cursor move per frame): from a state with an in-bounds
cursor, whatever the mailbox holds, one iteration changes the position by at
most one cell, `|x' - x| + |y' - y| <= 1`; and the same bound holds for the
iteration that follows any number of `joyHandler` calls. -/
theorem one_move_per_frame (pad : Joypad) (s : State) (js : List (Nat × Nat × Nat))
    (hb : 0 ≤ s.cursor_x ∧ s.cursor_x ≤ 39 ∧ 0 ≤ s.cursor_y ∧ s.cursor_y ≤ 27) :
    |((main_loop s).cursor_x : Int) - (s.cursor_x : Int)| +
        |((main_loop s).cursor_y : Int) - (s.cursor_y : Int)| ≤ 1 ∧
      |((main_loop (run pad s (joyEvents js))).cursor_x : Int) - (s.cursor_x : Int)| +
        |((main_loop (run pad s (joyEvents js))).cursor_y : Int) - (s.cursor_y : Int)| ≤ 1 := by
  refine ⟨main_loop_dist s hb, ?_⟩
  have hj := run_joyEvents_frame pad js s
  have hb' : InBounds (run pad s (joyEvents js)) := by
    unfold InBounds
    rw [hj.1, hj.2.1]
    exact hb
  have hd := main_loop_dist (run pad s (joyEvents js)) hb'
  rw [hj.1, hj.2.1] at hd
  exact hd

/-- C11 at a concrete input: with the SGDK constants and the cursor at
`(20, 14)`, a right, an up and a left-and-down event before the iteration
move the cursor by one cell only, to `(19, 14)`. -/
theorem one_move_per_frame_witness :
    (0 ≤ (stateAt 20 14 0).cursor_x ∧ (stateAt 20 14 0).cursor_x ≤ 39 ∧
      0 ≤ (stateAt 20 14 0).cursor_y ∧ (stateAt 20 14 0).cursor_y ≤ 27) ∧
      (main_loop (run sgdk (stateAt 20 14 0)
        (joyEvents [(0, 8, 8), (0, 9, 1), (0, 7, 6)]))).cursor_x = 19 ∧
      (main_loop (run sgdk (stateAt 20 14 0)
        (joyEvents [(0, 8, 8), (0, 9, 1), (0, 7, 6)]))).cursor_y = 14 ∧
      |((main_loop (run sgdk (stateAt 20 14 0)
          (joyEvents [(0, 8, 8), (0, 9, 1), (0, 7, 6)]))).cursor_x : Int) -
          ((stateAt 20 14 0).cursor_x : Int)| +
        |((main_loop (run sgdk (stateAt 20 14 0)
          (joyEvents [(0, 8, 8), (0, 9, 1), (0, 7, 6)]))).cursor_y : Int) -
          ((stateAt 20 14 0).cursor_y : Int)| ≤ 1 :=
  ⟨by decide, by decide, by decide,
    (one_move_per_frame sgdk (stateAt 20 14 0) [(0, 8, 8), (0, 9, 1), (0, 7, 6)]
      (by decide)).2⟩

/-- C12 (tile bitmap contents): for every row `r` and column `c` of the 8x8
tile, the pixel of `TILE_FILL` has colour index 1; the pixel of `TILE_CURSOR`
has colour index 2 exactly on the border (`r` or `c` equal to 0 or 7), is 2 or
0 everywhere, and is 0 (transparent) at every interior position. -/
theorem tile_bitmaps (r c : Nat) (hr : r < 8) (hc : c < 8) :
    pixel TILE_FILL r c = 1 ∧
      (pixel TILE_CURSOR r c = 2 ↔ (r = 0 ∨ r = 7 ∨ c = 0 ∨ c = 7)) ∧
      pixel TILE_CURSOR r c = (if r = 0 ∨ r = 7 ∨ c = 0 ∨ c = 7 then 2 else 0) ∧
      (1 ≤ r ∧ r ≤ 6 ∧ 1 ≤ c ∧ c ≤ 6 → pixel TILE_CURSOR r c = 0) := by
  interval_cases r <;> interval_cases c <;> decide

/-- C12 at concrete inputs: a corner, an edge and an interior pixel. -/
theorem tile_bitmaps_witness :
    ((0 : Nat) < 8 ∧ (3 : Nat) < 8 ∧ (7 : Nat) < 8) ∧
      pixel TILE_FILL 3 3 = 1 ∧ pixel TILE_CURSOR 0 0 = 2 ∧
      pixel TILE_CURSOR 3 7 = 2 ∧ pixel TILE_CURSOR 3 3 = 0 :=
  ⟨by decide, (tile_bitmaps 3 3 (by decide) (by decide)).1,
    (tile_bitmaps 0 0 (by decide) (by decide)).2.2.1,
    (tile_bitmaps 3 7 (by decide) (by decide)).2.2.1,
    (tile_bitmaps 3 3 (by decide) (by decide)).2.2.1⟩

/-- A call of `joyHandler` either leaves `move_dir` as it was or writes one of
the four direction constants. -/
theorem joyHandler_cases (pad : Joypad) (joy changed state m : Nat) :
    joyHandler pad joy changed state m = m ∨
      joyHandler pad joy changed state m = DIR_RIGHT ∨
      joyHandler pad joy changed state m = DIR_LEFT ∨
      joyHandler pad joy changed state m = DIR_UP ∨
      joyHandler pad joy changed state m = DIR_DOWN := by
  unfold joyHandler
  split_ifs <;> simp

/-- Every event keeps the mailbox inside its five values. -/
theorem step_validDir (pad : Joypad) (s : State) (e : Event) (h : ValidDir s.move_dir) :
    ValidDir (step pad s e).move_dir := by
  cases e with
  | joy joy changed state =>
    rcases joyHandler_cases pad joy changed state s.move_dir with hj | hj | hj | hj | hj
    · simp only [step, hj]
      exact h
    · simp only [step, hj]
      exact Or.inr (Or.inl rfl)
    · simp only [step, hj]
      exact Or.inr (Or.inr (Or.inl rfl))
    · simp only [step, hj]
      exact Or.inr (Or.inr (Or.inr (Or.inl rfl)))
    · simp only [step, hj]
      exact Or.inr (Or.inr (Or.inr (Or.inr rfl)))
  | frame => exact Or.inl (main_loop_move_dir s)

theorem run_validDir (pad : Joypad) (es : List Event) (s : State) (h : ValidDir s.move_dir) :
    ValidDir (run pad s es).move_dir := by
  induction es generalizing s with
  | nil => exact h
  | cons e es ih => exact ih (step pad s e) (step_validDir pad s e h)

/-- C13 (pending-direction domain): after any finite interleaving of
`joyHandler` calls and loop iterations started from the state `main` enters
its loop with, `move_dir` is 0, `DIR_RIGHT` = 1, `DIR_LEFT` = 2, `DIR_UP` = 3
or `DIR_DOWN` = 4.  A `joyHandler` call either leaves `move_dir` as it was or
writes one of the four directions, so it never turns a pending direction into
0; an iteration of the loop does set it to 0. -/
theorem move_dir_domain (pad : Joypad) (es : List Event) :
    ((run pad main_init es).move_dir = 0 ∨ (run pad main_init es).move_dir = 1 ∨
      (run pad main_init es).move_dir = 2 ∨ (run pad main_init es).move_dir = 3 ∨
      (run pad main_init es).move_dir = 4) ∧
    (∀ joy changed state m : Nat,
      joyHandler pad joy changed state m = m ∨
        joyHandler pad joy changed state m = DIR_RIGHT ∨
        joyHandler pad joy changed state m = DIR_LEFT ∨
        joyHandler pad joy changed state m = DIR_UP ∨
        joyHandler pad joy changed state m = DIR_DOWN) ∧
    (∀ joy changed state m : Nat, m ≠ 0 → joyHandler pad joy changed state m ≠ 0) ∧
    (∀ s : State, (main_loop s).move_dir = 0) := by
  refine ⟨run_validDir pad es main_init (Or.inl rfl), joyHandler_cases pad, ?_,
    main_loop_move_dir⟩
  intro joy changed state m hm
  rcases joyHandler_cases pad joy changed state m with hj | hj | hj | hj | hj <;> rw [hj]
  · exact hm
  · decide
  · decide
  · decide
  · decide

/-- C14 (idle iteration is the identity): with an empty mailbox one iteration
returns the state unchanged: same cursor position, same mailbox, the same
tile in every cell of both planes, and no tile-map write issued. -/
theorem idle_iteration (s : State) (h : s.move_dir = 0) :
    main_loop s = s ∧
      (main_loop s).cursor_x = s.cursor_x ∧ (main_loop s).cursor_y = s.cursor_y ∧
      (main_loop s).move_dir = s.move_dir ∧
      (∀ (p : Plane) (x y : Nat), (main_loop s).vdp.cell p x y = s.vdp.cell p x y) ∧
      (main_loop s).vdp.log = s.vdp.log := by
  have hs : main_loop s = s := main_loop_idle s h
  rw [hs]
  exact ⟨rfl, rfl, rfl, rfl, fun _ _ _ => rfl, rfl⟩

/-- C14 at a concrete input: the cursor at `(20, 14)` and an empty mailbox. -/
theorem idle_iteration_witness :
    (stateAt 20 14 0).move_dir = 0 ∧
      (main_loop (stateAt 20 14 0)).cursor_x = 20 ∧
      (main_loop (stateAt 20 14 0)).cursor_y = 14 ∧
      (main_loop (stateAt 20 14 0)).vdp.log = (stateAt 20 14 0).vdp.log :=
  ⟨rfl, (idle_iteration (stateAt 20 14 0) rfl).2.1, (idle_iteration (stateAt 20 14 0) rfl).2.2.1,
    (idle_iteration (stateAt 20 14 0) rfl).2.2.2.2.2⟩

/-- One iteration leaves every background cell as it was. -/
theorem main_loop_bg (s : State) (x y : Nat) :
    (main_loop s).vdp.cell BG_PLANE x y = s.vdp.cell BG_PLANE x y := by
  by_cases h0 : s.move_dir = NULL
  · rw [main_loop_idle s h0]
  · rw [main_loop_vdp s h0]
    have hne : ¬ BG_PLANE = CURSOR_PLANE := by decide
    simp only [VDP_setTileMapXY, hne, false_and, if_false]

/-- No event changes a background cell. -/
theorem run_bg (pad : Joypad) (es : List Event) (s : State) (x y : Nat) :
    (run pad s es).vdp.cell BG_PLANE x y = s.vdp.cell BG_PLANE x y := by
  induction es generalizing s with
  | nil => rfl
  | cons e es ih =>
    have h := ih (step pad s e)
    cases e with
    | joy joy changed state => exact h
    | frame => exact h.trans (main_loop_bg s x y)

/-- The background plane on entry of the loop: the fill tile on the 40x28 grid
and nothing elsewhere. -/
theorem main_init_bg (x y : Nat) :
    main_init.vdp.cell BG_PLANE x y =
      if x ≤ X_MAX ∧ y ≤ Y_MAX then VRAM_POS_TILE_FILL else NULL := by
  simp only [main_init, VDP_setTileMapXY]
  rw [if_neg (by rintro ⟨h, _⟩; exact absurd h (by decide)), fillPlane_cell]
  simp only [X_MIN, true_and, Nat.zero_le]
  rfl

/-- C15 (the loop never touches the background): one iteration leaves every
background cell unchanged, whatever the state and the mailbox; hence after any
finite interleaving of events from the entry of the loop the background still
holds the fill tile (index 1) on the whole 40x28 grid.  The writes of an
iteration are none (empty mailbox) or the clear of the old cursor cell
followed by the cursor tile at the new one, both on the foreground plane, and
every other foreground cell keeps its tile. -/
theorem background_untouched (pad : Joypad) (s : State) (es : List Event) :
    (∀ x y : Nat, (main_loop s).vdp.cell BG_PLANE x y = s.vdp.cell BG_PLANE x y) ∧
    (∀ x y : Nat, (run pad main_init es).vdp.cell BG_PLANE x y =
      if x ≤ 39 ∧ y ≤ 27 then 1 else 0) ∧
    (main_loop s).vdp.log = s.vdp.log ++
      (if s.move_dir ≠ 0 then
        [TileWrite.mk CURSOR_PLANE 0 s.cursor_x s.cursor_y,
         TileWrite.mk CURSOR_PLANE 2 (main_loop s).cursor_x (main_loop s).cursor_y]
       else []) ∧
    (∀ x y : Nat, ¬ (x = s.cursor_x ∧ y = s.cursor_y) →
      ¬ (x = (main_loop s).cursor_x ∧ y = (main_loop s).cursor_y) →
      (main_loop s).vdp.cell CURSOR_PLANE x y = s.vdp.cell CURSOR_PLANE x y) := by
  refine ⟨main_loop_bg s, fun x y => (run_bg pad es main_init x y).trans (main_init_bg x y),
    ?_, ?_⟩
  · by_cases h0 : s.move_dir = NULL
    · have h0' : s.move_dir = 0 := h0
      rw [main_loop_idle s h0]
      simp [h0']
    · have h0' : s.move_dir ≠ 0 := h0
      rw [main_loop_vdp s h0, if_pos h0']
      simp [VDP_setTileMapXY, NULL, VRAM_POS_TILE_CURSOR]
  · intro x y hold hnew
    by_cases h0 : s.move_dir = NULL
    · rw [main_loop_idle s h0]
    · rw [main_loop_vdp s h0]
      simp only [VDP_setTileMapXY, true_and, if_neg hold, if_neg hnew]

/-- C16 (no-direction events keep the mailbox): a `joyHandler` call for `JOY_1`
whose state has none of the four directional bits set leaves `move_dir`
unchanged, so the iteration that follows yields what it would have yielded
without the call: a direction still pending is applied. -/
theorem no_direction_event (pad : Joypad) (s : State) (changed state : Nat)
    (hL : state &&& pad.BUTTON_LEFT = 0) (hR : state &&& pad.BUTTON_RIGHT = 0)
    (hU : state &&& pad.BUTTON_UP = 0) (hD : state &&& pad.BUTTON_DOWN = 0) :
    joyHandler pad pad.JOY_1 changed state s.move_dir = s.move_dir ∧
      run pad s [Event.joy pad.JOY_1 changed state] = s ∧
      run pad s [Event.joy pad.JOY_1 changed state, Event.frame] = main_loop s := by
  have hj : joyHandler pad pad.JOY_1 changed state s.move_dir = s.move_dir := by
    simp [joyHandler, hL, hR, hU, hD]
  have hs : run pad s [Event.joy pad.JOY_1 changed state] = s := by
    simp only [run, List.foldl, step, hj]
  refine ⟨hj, hs, ?_⟩
  have hr : run pad s [Event.joy pad.JOY_1 changed state, Event.frame] =
      main_loop (run pad s [Event.joy pad.JOY_1 changed state]) := rfl
  rw [hr, hs]

/-- C16 at a concrete input: with the SGDK constants, a pending `DIR_RIGHT` at
`(20, 14)` survives an event with state `0x0040` (only button A held), and the
next iteration moves the cursor to `(21, 14)`. -/
theorem no_direction_event_witness :
    (0x40 &&& sgdk.BUTTON_LEFT = 0 ∧ 0x40 &&& sgdk.BUTTON_RIGHT = 0 ∧
      0x40 &&& sgdk.BUTTON_UP = 0 ∧ 0x40 &&& sgdk.BUTTON_DOWN = 0) ∧
      joyHandler sgdk sgdk.JOY_1 0x48 0x40 DIR_RIGHT = DIR_RIGHT ∧
      (run sgdk (stateAt 20 14 DIR_RIGHT)
        [Event.joy sgdk.JOY_1 0x48 0x40, Event.frame]).cursor_x = 21 ∧
      (run sgdk (stateAt 20 14 DIR_RIGHT)
        [Event.joy sgdk.JOY_1 0x48 0x40, Event.frame]).cursor_y = 14 :=
  ⟨by decide,
    (no_direction_event sgdk (stateAt 20 14 DIR_RIGHT) 0x48 0x40
      (by decide) (by decide) (by decide) (by decide)).1,
    congrArg State.cursor_x (no_direction_event sgdk (stateAt 20 14 DIR_RIGHT) 0x48 0x40
      (by decide) (by decide) (by decide) (by decide)).2.2,
    congrArg State.cursor_y (no_direction_event sgdk (stateAt 20 14 DIR_RIGHT) 0x48 0x40
      (by decide) (by decide) (by decide) (by decide)).2.2⟩

/-- C17 (independence of the changed-buttons mask): for the same `joy`, `state`
and previous `move_dir`, two `joyHandler` calls with different `changed`
masks write the same `move_dir`.  In particular, when a directional button is
held in `state`, a `JOY_1` event records the held direction (by the priority
left, right, up, down) even if its `changed` mask has no directional bit. -/
theorem changed_mask_irrelevant (pad : Joypad) (joy state changed1 changed2 move_dir : Nat) :
    joyHandler pad joy changed1 state move_dir = joyHandler pad joy changed2 state move_dir ∧
      ((state &&& pad.BUTTON_LEFT ≠ 0 ∨ state &&& pad.BUTTON_RIGHT ≠ 0 ∨
          state &&& pad.BUTTON_UP ≠ 0 ∨ state &&& pad.BUTTON_DOWN ≠ 0) →
        changed1 &&& pad.BUTTON_LEFT = 0 → changed1 &&& pad.BUTTON_RIGHT = 0 →
        changed1 &&& pad.BUTTON_UP = 0 → changed1 &&& pad.BUTTON_DOWN = 0 →
        joyHandler pad pad.JOY_1 changed1 state move_dir =
          (if state &&& pad.BUTTON_LEFT ≠ 0 then DIR_LEFT
           else if state &&& pad.BUTTON_RIGHT ≠ 0 then DIR_RIGHT
           else if state &&& pad.BUTTON_UP ≠ 0 then DIR_UP
           else DIR_DOWN)) := by
  refine ⟨rfl, ?_⟩
  intro h _ _ _ _
  unfold joyHandler
  simp only [ne_eq, not_true_eq_false, if_false]
  by_cases hL : state &&& pad.BUTTON_LEFT = 0
  · by_cases hR : state &&& pad.BUTTON_RIGHT = 0
    · by_cases hU : state &&& pad.BUTTON_UP = 0
      · have hD : state &&& pad.BUTTON_DOWN ≠ 0 := by
          rcases h with h | h | h | h
          · exact absurd hL h
          · exact absurd hR h
          · exact absurd hU h
          · exact h
        simp [hL, hR, hU, hD]
      · simp [hL, hR, hU]
    · simp [hL, hR]
  · simp [hL]

/-- C17 at a concrete input: with the SGDK constants, while right is held, an
event in which only button A changed (`changed = 0x0040`, `state = 0x0048`)
records `DIR_RIGHT`, as does the event with `changed = 0x0008`. -/
theorem changed_mask_irrelevant_witness :
    joyHandler sgdk sgdk.JOY_1 0x40 0x48 0 = joyHandler sgdk sgdk.JOY_1 0x08 0x48 0 ∧
      joyHandler sgdk sgdk.JOY_1 0x40 0x48 0 = DIR_RIGHT :=
  ⟨(changed_mask_irrelevant sgdk sgdk.JOY_1 0x48 0x40 0x08 0).1,
    (changed_mask_irrelevant sgdk sgdk.JOY_1 0x48 0x40 0x08 0).2
      (Or.inr (Or.inl (by decide))) (by decide) (by decide) (by decide) (by decide)⟩

end TileCursor
